import Mathlib

/-!
Shallow embedding of the digital spec agent pipeline
(`src/agents/digital/digital_spec_agent.py`, function `run_agent`):
extraction of delimited Verilog blocks from raw LLM output, JSON-metadata
normalization (auto-flatten, name canonicalization), artifact resolution,
file emission, the syntax-check gateway and the final state record.

External collaborators (the LLM call, `json.loads`, the filesystem and the
`iverilog` subprocess) are modelled as an environment of oracles; Python
exceptions that the source does not catch are modelled as `Except.error`
results that abort the run, preserving the log of files already written.
-/

namespace DigitalSpec

/-- JSON-like values, the result of `json.loads` on the metadata segment.
Numbers are modelled as integers (no claim involves numeric metadata). -/
inductive JVal where
  | jnull
  | jbool (b : Bool)
  | jnum (n : Int)
  | jstr (s : String)
  | jarr (xs : List JVal)
  | jobj (fields : List (String × JVal))
deriving Repr

/-- First value bound to a key in a Python dict (keys are unique). -/
def getKey : List (String × JVal) → String → Option JVal
  | [], _ => none
  | (k, v) :: rest, key => if k = key then some v else getKey rest key

/-- Python `d[k] = v`: replace the value in place, or append a new binding. -/
def setKey : List (String × JVal) → String → JVal → List (String × JVal)
  | [], key, v => [(key, v)]
  | (k, w) :: rest, key, v =>
      if k = key then (k, v) :: rest else (k, w) :: setKey rest key v

/-- Python `k in d` for a dict. -/
def hasKey (fs : List (String × JVal)) (key : String) : Bool :=
  (getKey fs key).isSome

/-- Python truthiness of a JSON value. -/
def truthy : JVal → Bool
  | .jnull => false
  | .jbool b => b
  | .jnum n => n != 0
  | .jstr s => s ≠ ""
  | .jarr xs => !xs.isEmpty
  | .jobj fs => !fs.isEmpty

/-- Python truthiness of an optional value (`None` is falsy). -/
def truthyOpt : Option JVal → Bool
  | none => false
  | some v => truthy v

mutual

/-- Python `==` on JSON values (dict comparison is key-based, order
insensitive, sound because `json.loads` yields unique keys; the numeric
`True == 1` coercion is not modelled, no claim depends on it). -/
def jvalEq : JVal → JVal → Bool
  | .jnull, .jnull => true
  | .jbool a, .jbool b => a == b
  | .jnum a, .jnum b => a == b
  | .jstr a, .jstr b => a == b
  | .jarr xs, .jarr ys => jarrEq xs ys
  | .jobj fs, .jobj gs => fs.length == gs.length && jobjLe fs gs
  | _, _ => false

/-- Elementwise Python `==` on lists. -/
def jarrEq : List JVal → List JVal → Bool
  | [], [] => true
  | x :: xs, y :: ys => jvalEq x y && jarrEq xs ys
  | _, _ => false

/-- Every binding of the first dict is present (with an equal value) in the
second. -/
def jobjLe : List (String × JVal) → List (String × JVal) → Bool
  | [], _ => true
  | (k, v) :: fs, gs =>
      (match getKey gs k with
       | some w => jvalEq v w
       | none => false) && jobjLe fs gs

end

/-- Python `str()` of a value interpolated into an f-string. Container
reprs are abbreviated: no claim names a module after a list or dict. -/
def pyStrOf : JVal → String
  | .jstr s => s
  | .jnum n => toString n
  | .jbool true => "True"
  | .jbool false => "False"
  | .jnull => "None"
  | .jarr _ => "<list>"
  | .jobj _ => "<dict>"

/-- Python `d.get(k)` (no default): `AttributeError` on a non-dict. -/
def pyDictGet (v : JVal) (key : String) : Except String (Option JVal) :=
  match v with
  | .jobj fs => .ok (getKey fs key)
  | _ => .error "AttributeError: object has no attribute get"

/-- Python `d.get(k, default)`: `AttributeError` on a non-dict. -/
def pyDictGetD (v : JVal) (key : String) (dflt : JVal) : Except String JVal :=
  match v with
  | .jobj fs => .ok ((getKey fs key).getD dflt)
  | _ => .error "AttributeError: object has no attribute get"

/-- Split at the first occurrence of `pat`: text before it and text after
it (Python `s.split(pat, 1)` for a nonempty separator). -/
def splitOnFirst (pat : List Char) : List Char → Option (List Char × List Char)
  | [] => if pat.isEmpty then some ([], []) else none
  | c :: cs =>
      if pat.isPrefixOf (c :: cs) then some ([], (c :: cs).drop pat.length)
      else
        match splitOnFirst pat cs with
        | some (pre, post) => some (c :: pre, post)
        | none => none

/-- Python `sub in s` on strings. -/
def strHas (s sub : String) : Bool :=
  (splitOnFirst sub.data s.data).isSome

/-- Python `key in v` for dicts, lists and strings; `TypeError` otherwise. -/
def pyIn (key : String) (v : JVal) : Except String Bool :=
  match v with
  | .jobj fs => .ok (hasKey fs key)
  | .jarr xs => .ok (xs.any (fun x => jvalEq x (.jstr key)))
  | .jstr s => .ok (strHas s key)
  | _ => .error "TypeError: argument is not iterable"

/-- Python `v[key]` with a string key. -/
def pyGetItem (v : JVal) (key : String) : Except String JVal :=
  match v with
  | .jobj fs =>
      match getKey fs key with
      | some w => .ok w
      | none => .error ("KeyError: " ++ key)
  | .jarr _ => .error "TypeError: list indices must be integers"
  | .jstr _ => .error "TypeError: string indices must be integers"
  | _ => .error "TypeError: object is not subscriptable"

/-- Python `v[key] = w` with a string key (mutation, modelled functionally). -/
def pySetItem (v : JVal) (key : String) (w : JVal) : Except String JVal :=
  match v with
  | .jobj fs => .ok (.jobj (setKey fs key w))
  | _ => .error "TypeError: object does not support item assignment"

/-- Python `len(v)`. -/
def pyLen (v : JVal) : Except String Nat :=
  match v with
  | .jarr xs => .ok xs.length
  | .jstr s => .ok s.length
  | .jobj fs => .ok fs.length
  | _ => .error "TypeError: object has no len"

/-- Python `v[0]`. -/
def pyIndexZero (v : JVal) : Except String JVal :=
  match v with
  | .jarr (x :: _) => .ok x
  | .jarr [] => .error "IndexError: list index out of range"
  | .jstr s =>
      match s.data with
      | c :: _ => .ok (.jstr (String.mk [c]))
      | [] => .error "IndexError: string index out of range"
  | .jobj _ => .error "KeyError: 0"
  | _ => .error "TypeError: object is not subscriptable"

/-- Python `for m in v`: lists yield elements, strings yield one-character
strings, dicts yield their keys; `TypeError` otherwise. -/
def pyIterList (v : JVal) : Except String (List JVal) :=
  match v with
  | .jarr xs => .ok xs
  | .jstr s => .ok (s.data.map (fun c => .jstr (String.mk [c])))
  | .jobj fs => .ok (fs.map (fun p => .jstr p.1))
  | _ => .error "TypeError: object is not iterable"

/-- Python `\s` (ASCII range, the only characters the repository emits). -/
def isPySpace (c : Char) : Bool :=
  c = ' ' || c = '\t' || c = '\n' || c = '\r' || c = '\x0b' || c = '\x0c'

/-- Python `s.strip()` (ASCII whitespace). -/
def pyStrip (s : String) : String :=
  String.mk (((s.data.dropWhile isPySpace).reverse.dropWhile isPySpace).reverse)

/-- Python `str.lower` on one character (ASCII; every character the
pipeline lowercases is ASCII). -/
def pyLowerChar (c : Char) : Char :=
  if 'A' ≤ c ∧ c ≤ 'Z' then Char.ofNat (c.toNat + 32) else c

/-- Python `s.lower()`. -/
def pyLower (s : String) : String :=
  String.mk (s.data.map pyLowerChar)

/-- Python `s.startswith(pre)`. -/
def pyStartsWith (s pre : String) : Bool :=
  pre.data.isPrefixOf s.data

/-- Python `x.strip()`: `AttributeError` on a non-string. -/
def pyStripStr (v : JVal) : Except String String :=
  match v with
  | .jstr s => .ok (pyStrip s)
  | _ => .error "AttributeError: object has no attribute strip"

/-- Value written by `f.write(x)`: `TypeError` on a non-string. -/
def pyWriteStr (v : JVal) : Except String String :=
  match v with
  | .jstr s => .ok s
  | _ => .error "TypeError: write argument must be str"

/-! ### Marker extraction

Embedding of the three regex scans of lines 134-151 of the source:
`re.findall(r"---BEGIN\s+([\w\-.]+)---(.*?)---END\s+\1---", ..., re.DOTALL)`,
the generic fallback `re.findall(r"---BEGIN\s+VERILOG---(.*?)---END\s+VERILOG---", ...)`
and `re.search(r"---BEGIN VERILOG---(.*?)---END VERILOG---", ...)`.
The scanners reproduce the leftmost, non-overlapping, backtracking
semantics of `re` on these patterns: `\s+` is a maximal nonempty
whitespace run (its character class is disjoint from the token class, so
no backtracking between the two arises), the token group `[\w\-.]+` is
greedy with backtracking against the literal `---` that follows, and the
lazy group `(.*?)` stops at the earliest matching end marker. -/

/-- Character class `[\w\-.]` of the marker token (ASCII `\w`). -/
def isTokChar (c : Char) : Bool :=
  c.isAlphanum || c = '_' || c = '-' || c = '.'

/-- Does the string literal start the character list. -/
def isPfx (p : String) (s : List Char) : Bool :=
  p.data.isPrefixOf s

/-- Candidate splits of the greedy token group: the maximal `[\w\-.]+` run
is shrunk from the right until the literal `---` matches, longest
candidate first.  Each candidate is the captured token together with the
text following its closing `---`. -/
def candSplits (run rest : List Char) : List (List Char × List Char) :=
  (List.range run.length).reverse.filterMap (fun j =>
    let i := j + 1
    let tail := run.drop i ++ rest
    if isPfx "---" tail then some (run.take i, tail.drop 3) else none)

/-- Match `---BEGIN\s+([\w\-.]+)---` at exactly this position, returning
every backtracking candidate for the token group in preference order. -/
def beginCandidates (s : List Char) : List (List Char × List Char) :=
  if isPfx "---BEGIN" s then
    let s1 := s.drop 8
    let ws := s1.takeWhile isPySpace
    if ws.isEmpty then []
    else
      let s2 := s1.dropWhile isPySpace
      let run := s2.takeWhile isTokChar
      let rest := s2.dropWhile isTokChar
      candSplits run rest
  else []

/-- Match `---END\s+tok---` at exactly this position, returning the text
after the marker. -/
def matchEndAt (tok : List Char) (s : List Char) : Option (List Char) :=
  if isPfx "---END" s then
    let s1 := s.drop 6
    let ws := s1.takeWhile isPySpace
    if ws.isEmpty then none
    else
      let s2 := s1.dropWhile isPySpace
      if tok.isPrefixOf s2 then
        let s3 := s2.drop tok.length
        if isPfx "---" s3 then some (s3.drop 3) else none
      else none
  else none

/-- Lazy scan for the earliest end marker: the content captured by `(.*?)`
and the text after the end marker. -/
def findEnd (tok : List Char) : List Char → Option (List Char × List Char)
  | [] => none
  | c :: cs =>
      match matchEndAt tok (c :: cs) with
      | some rest => some ([], rest)
      | none =>
          match findEnd tok cs with
          | some (content, rest) => some (c :: content, rest)
          | none => none

/-- First backtracking candidate of the begin marker whose token also has
a matching end marker. -/
def firstCand : List (List Char × List Char) → Option (String × String × List Char)
  | [] => none
  | (tok, rest) :: more =>
      match findEnd tok rest with
      | some (content, rest2) => some (String.mk tok, String.mk content, rest2)
      | none => firstCand more

/-- Full match of the paired-marker pattern at exactly this position. -/
def tryPairAt (s : List Char) : Option (String × String × List Char) :=
  firstCand (beginCandidates s)

/-- `re.findall` loop for the paired pattern: leftmost, non-overlapping;
a failed position advances by one character.  The fuel argument is called
with the input length, an upper bound on the number of scan steps (every
step strictly shortens the text). -/
def findPairedAux : Nat → List Char → List (String × String)
  | 0, _ => []
  | _ + 1, [] => []
  | fuel + 1, c :: cs =>
      match tryPairAt (c :: cs) with
      | some (tok, content, rest) => (tok, content) :: findPairedAux fuel rest
      | none => findPairedAux fuel cs

/-- All paired `---BEGIN tok--- ... ---END tok---` blocks of the text. -/
def findPairedBlocks (s : String) : List (String × String) :=
  findPairedAux s.data.length s.data

/-- Match `---BEGIN\s+VERILOG---(.*?)---END\s+VERILOG---` at exactly this
position. -/
def matchGenericAt (s : List Char) : Option (List Char) :=
  if isPfx "---BEGIN" s then
    let s1 := s.drop 8
    let ws := s1.takeWhile isPySpace
    if ws.isEmpty then none
    else
      let s2 := s1.dropWhile isPySpace
      if isPfx "VERILOG---" s2 then
        match findEnd "VERILOG".data (s2.drop 10) with
        | some (content, _) => some content
        | none => none
      else none
  else none

/-- First match of the generic `VERILOG` pattern (`re.findall(...)[0]`,
only the first element is consumed by the source). -/
def findGenericFirstAux : List Char → Option (List Char)
  | [] => none
  | c :: cs =>
      match matchGenericAt (c :: cs) with
      | some content => some content
      | none => findGenericFirstAux cs

/-- First generic `VERILOG` block of the text. -/
def findGenericFirst (s : String) : Option String :=
  (findGenericFirstAux s.data).map String.mk

/-- `re.search(r"---BEGIN VERILOG---(.*?)---END VERILOG---", s, re.DOTALL)`:
single-space literal markers, first begin marker, earliest end marker. -/
def searchExactGeneric (s : String) : Option String := do
  let (_, rest) ← splitOnFirst "---BEGIN VERILOG---".data s.data
  let (content, _) ← splitOnFirst "---END VERILOG---".data rest
  some (String.mk content)

/-- Replace the first binding of a key, or append (Python dict insert). -/
def dictInsert (m : List (String × String)) (k v : String) : List (String × String) :=
  if m.any (fun p => p.1 == k) then
    m.map (fun p => if p.1 == k then (k, v) else p)
  else m ++ [(k, v)]

/-- Lookup in the extracted block map (Python `verilog_map.get`). -/
def lookupStr (m : List (String × String)) (k : String) : Option String :=
  (m.find? (fun p => p.1 == k)).map Prod.snd

/-- Lines 134-151 of the source: the paired-marker scan, the generic
`VERILOG` fallback when no pair matched, the stripped filename-to-code
dict, and the exact-spacing `re.search` fallback when the dict is empty. -/
def extractVerilogMap (llm_output : String) : List (String × String) :=
  let verilog_blocks := findPairedBlocks llm_output
  let verilog_blocks :=
    if verilog_blocks.isEmpty then
      match findGenericFirst llm_output with
      | some c => [("default.v", c)]
      | none => []
    else verilog_blocks
  let verilog_map :=
    verilog_blocks.foldl (fun m p => dictInsert m (pyStrip p.1) (pyStrip p.2)) []
  if verilog_map.isEmpty then
    match searchExactGeneric llm_output with
    | some c => [("default.v", pyStrip c)]
    | none => []
  else verilog_map

/-- Python `s.split(sep, 1)[0]` for a nonempty separator. -/
def pySplitBefore (sep s : String) : String :=
  match splitOnFirst sep.data s.data with
  | some (pre, _) => String.mk pre
  | none => s

/-- Python `s.split(sep, 1)[-1]` for a nonempty separator. -/
def pySplitAfter (sep s : String) : String :=
  match splitOnFirst sep.data s.data with
  | some (_, post) => String.mk post
  | none => s

/-! ### Pipeline stages on the parsed metadata -/

/-- The metadata segment: text before the first `---BEGIN`, stripped
(line 156 of the source). -/
def specPartOf (llm_output : String) : String :=
  pyStrip (pySplitBefore "---BEGIN" llm_output)

/-- The placeholder substituted when `json.loads` raises (line 160). -/
def parseFailurePlaceholder (spec_part : String) : JVal :=
  .jobj [("description", .jstr "LLM JSON parse failed"), ("raw", .jstr spec_part)]

/-- Lines 162-168: when the output contains a closing brace, text after
the first one that starts (case-insensitively) with `module` is stored
into the spec under `rtl_code`. -/
def injectTrailing (llm_output : String) (spec_json : JVal) : Except String JVal :=
  if strHas llm_output "\x7d" then
    let trailing_text := pyStrip (pySplitAfter "\x7d" llm_output)
    if pyStartsWith (pyLower trailing_text) "module" then
      pySetItem spec_json "rtl_code" (.jstr trailing_text)
    else .ok spec_json
  else .ok spec_json

/-- Lines 170-185 (FIX 3): auto-flatten a degenerate hierarchy.  Rule A:
no submodules and a truthy top module replaces the whole spec by the top
module.  Rule B: a single submodule, or a top module whose name equals
the first submodule name, replaces the whole spec by the first
submodule. -/
def autoFlatten (spec_json : JVal) : Except String JVal := do
  let b ← pyIn "hierarchy" spec_json
  if b then
    let h ← pyGetItem spec_json "hierarchy"
    match h with
    | .jobj hf =>
        let modules := (getKey hf "modules").getD (.jarr [])
        let top := (getKey hf "top_module").getD (.jobj [])
        if !truthy modules && truthy top then
          .ok top
        else do
          let n ← pyLen modules
          let cond ←
            if n = 1 then pure true
            else do
              let tn ← pyDictGet top "name"
              if !truthyOpt tn then pure false
              else if !truthy modules then pure false
              else do
                let m0 ← pyIndexZero modules
                let mn ← pyDictGet m0 "name"
                pure (match tn, mn with
                      | some a, some c => jvalEq a c
                      | none, none => true
                      | _, _ => false)
          if cond then pyIndexZero modules else .ok spec_json
    | _ => .ok spec_json
  else .ok spec_json

/-- Member rewrite of lines 198-200: copy `module_name` to `name` when
`name` is absent. -/
def normMember (m : JVal) : Except String JVal := do
  let hasName ← pyIn "name" m
  if hasName then .ok m
  else do
    let hasMn ← pyIn "module_name" m
    if hasMn then do
      let v ← pyGetItem m "module_name"
      pySetItem m "name" v
    else .ok m

/-- Lines 187-200 (FIX 4): on a dict spec, copy `module_name` to `name`
at top level when `name` is absent, then apply the same rewrite to every
entry of `hierarchy.modules`.  (The `module_name` local computed at lines
189-194 is shadowed by line 202 before any use and has no effect.)  On a
non-dict spec this is the identity. -/
def normalizeNames (spec_json : JVal) : Except String JVal :=
  match spec_json with
  | .jobj fs =>
      let fs1 :=
        if (getKey fs "name").isNone && (getKey fs "module_name").isSome then
          setKey fs "name" ((getKey fs "module_name").getD .jnull)
        else fs
      if hasKey fs1 "hierarchy" then
        match getKey fs1 "hierarchy" with
        | some (.jobj hf) =>
            (match getKey hf "modules" with
             | some (.jarr ms) => do
                 let ms1 ← ms.mapM normMember
                 .ok (.jobj (setKey fs1 "hierarchy"
                       (.jobj (setKey hf "modules" (.jarr ms1)))))
             | some other => do
                 -- iterating a non-list `modules`: items are fresh strings
                 -- (or dict keys), whose in-place rewrite either throws or
                 -- cannot be observed through the spec
                 let items ← pyIterList other
                 let _ ← items.mapM normMember
                 .ok (.jobj fs1)
             | none => .ok (.jobj fs1))
        | _ => .error "AttributeError: object has no attribute get"
      else .ok (.jobj fs1)
  | v => .ok v

/-- Second and third members of the `or` chain of line 202. -/
def resolveModuleNameFallback (spec_json : JVal) : Except String String := do
  let n2 ← pyDictGet spec_json "module_name"
  match n2 with
  | some v => if truthy v then .ok (pyStrOf v) else .ok "auto_module"
  | none => .ok "auto_module"

/-- Line 202: `spec_json.get("name") or spec_json.get("module_name") or
"auto_module"` — note `design_name` is not consulted here. -/
def resolveModuleName (spec_json : JVal) : Except String String := do
  let n1 ← pyDictGet spec_json "name"
  match n1 with
  | some v =>
      if truthy v then .ok (pyStrOf v)
      else resolveModuleNameFallback spec_json
  | none => resolveModuleNameFallback spec_json

/-- Line 237: flat content resolution,
`verilog_map.get(f"{module_name}.v") or verilog_map.get("default.v") or
spec_json.get("rtl_code", "")`; the result must be a string to be written
(`f.write`). -/
def resolveFlatCode (verilog_map : List (String × String)) (module_name : String)
    (spec_json : JVal) : Except String String :=
  let a := (lookupStr verilog_map (module_name ++ ".v")).getD ""
  if a ≠ "" then .ok a
  else
    let b := (lookupStr verilog_map "default.v").getD ""
    if b ≠ "" then .ok b
    else do
      let c ← pyDictGetD spec_json "rtl_code" (.jstr "")
      pyWriteStr c

/-- Second and third members of the chain of line 215 / 225. -/
def hierCodeFallback (verilog_map : List (String × String)) (fnameV : JVal) : JVal :=
  let s :=
    match fnameV with
    | .jstr f => (lookupStr verilog_map f).getD ""
    | _ => ""
  if s ≠ "" then .jstr s else .jstr ""

/-- Line 215 / 225: `(m.get("rtl_code") or verilog_map.get(fname, "") or
"")` — the module inline code, else the block keyed by the file name,
else the empty string.  A non-string file name is simply absent from the
block map (Python dict lookup by a non-string key misses). -/
def hierCodeChain (m : JVal) (verilog_map : List (String × String))
    (fnameV : JVal) : Except String JVal := do
  let r ← pyDictGet m "rtl_code"
  match r with
  | some v =>
      if truthy v then .ok v
      else .ok (hierCodeFallback verilog_map fnameV)
  | none => .ok (hierCodeFallback verilog_map fnameV)

/-! ### The effectful run -/

/-- Outcome of the `subprocess.run(["/usr/bin/iverilog", ...], check=True)`
call: exit 0; a nonzero exit (`CalledProcessError`, carrying the value of
`e.stderr or e.stdout or ""`); or a failure to invoke the tool at all
(`FileNotFoundError` and kin), which the source does not catch. -/
inductive IverilogOutcome where
  | exitZero
  | exitNonZero (diagnostics : String)
  | invokeFail (message : String)
deriving Repr

/-- Content of one emitted file.  The normalized spec is recorded as the
JSON value passed to `json.dump` rather than as serialized text. -/
inductive FileContent where
  | text (s : String)
  | json (v : JVal)
deriving Repr

/-- The mutable `state` dict of `run_agent`, restricted to the keys the
function reads or writes. -/
structure AgentState where
  workflow_id : Option String := none
  workflow_dir : Option String := none
  spec : Option String := none
  status : Option String := none
  artifact : Option String := none
  artifact_list : Option (List String) := none
  artifact_log : Option String := none
  spec_json : Option String := none
  hierarchical_mode : Option String := none
  error_log : Option String := none
deriving Repr, DecidableEq

/-- External collaborators of one run: the generation backend (`.error`
models an exception inside the Portkey call, `.ok` the returned content,
already defaulted to `""`), `json.loads` (`none` models a raised parse
error), per-path filesystem write success, the syntax checker, and the
timestamp interpolated into the log. -/
structure Env where
  llm : Except String String
  parseJson : String → Option JVal
  writeOk : String → Bool
  iverilog : String → IverilogOutcome
  now : String

/-- `os.path.join` for the relative paths the agent builds. -/
def pathJoin (dir name : String) : String :=
  dir ++ "/" ++ name

/-- Run effect: accumulated file writes, with Python exceptions modelled
as errors that keep the writes already performed. -/
abbrev Eff := EStateM String (List (String × FileContent))

/-- Raise an uncaught Python exception. -/
def effThrow (msg : String) : Eff α :=
  fun ws => .error msg ws

/-- Lift a fallible pure stage into the run. -/
def liftE : Except String α → Eff α
  | .ok a => pure a
  | .error e => effThrow e

/-- `with open(path, "w") as f: f.write(content)`: appends to the write
log, or raises when the filesystem refuses the path. -/
def writeFileE (env : Env) (path : String) (content : FileContent) : Eff Unit :=
  fun ws =>
    if env.writeOk path then .ok () (ws ++ [(path, content)])
    else .error ("IOError: cannot write " ++ path) ws

/-- Emission loop body for one hierarchy member (lines 212-220 and, for
the top module, 223-230): resolve name, file name and content, write the
file, and return its path. -/
def emitHierModule (env : Env) (workflow_dir : String)
    (verilog_map : List (String × String)) (dfltName : String) (m : JVal) :
    Eff String := do
  let mnameV ← liftE (pyDictGetD m "name" (.jstr dfltName))
  let mname := pyStrOf mnameV
  let fnameV ← liftE (pyDictGetD m "rtl_output_file" (.jstr (mname ++ ".v")))
  let codeV ← liftE (hierCodeChain m verilog_map fnameV)
  let code ← liftE (pyStripStr codeV)
  let fname ← liftE (pyWriteStr fnameV)
  let fpath := pathJoin workflow_dir fname
  writeFileE env fpath (.text code)
  pure fpath

/-- Lines 154-205 up to the spec write: parse the metadata segment (with
the parse-failure placeholder), inject trailing Verilog, auto-flatten,
normalize names, and resolve the module name. -/
def normalizeChain (env : Env) (llm_output : String) : Except String (JVal × String) := do
  let spec_part := specPartOf llm_output
  let spec_json0 :=
    match env.parseJson spec_part with
    | some v => v
    | none => parseFailurePlaceholder spec_part
  let spec_json1 ← injectTrailing llm_output spec_json0
  let spec_json2 ← autoFlatten spec_json1
  let spec_json3 ← normalizeNames spec_json2
  let module_name ← resolveModuleName spec_json3
  .ok (spec_json3, module_name)

/-- The body of `run_agent` (lines 36-283 of
`src/agents/digital/digital_spec_agent.py`), from the guards through the
final `state.update`.  The artifact-registry appends of lines 265-271 are
wrapped in a bare `except` in the source and have no effect on the
returned state or the write log, so they are not modelled. -/
def runAgentM (env : Env) (state : AgentState) : Eff AgentState := do
  let workflow_id := state.workflow_id.getD "default"
  let workflow_dir := state.workflow_dir.getD ("backend/workflows/" ++ workflow_id)
  let user_prompt := state.spec.getD ""
  if user_prompt = "" then
    return { state with status := some "❌ No spec provided" }
  else
    match env.llm with
    | .error e =>
        return { state with status := some ("❌ LLM generation failed: " ++ e) }
    | .ok llm_output => do
        let raw_output_path := pathJoin workflow_dir "llm_raw_output.txt"
        writeFileE env raw_output_path (.text llm_output)
        let verilog_map := extractVerilogMap llm_output
        let norm ← liftE (normalizeChain env llm_output)
        let spec_json3 := norm.1
        let module_name := norm.2
        let spec_json_path := pathJoin workflow_dir (module_name ++ "_spec.json")
        writeFileE env spec_json_path (.json spec_json3)
        let isHier ← liftE (pyIn "hierarchy" spec_json3)
        let branch ←
          if isHier then do
            let h ← liftE (pyGetItem spec_json3 "hierarchy")
            let modulesJ ← liftE (pyDictGetD h "modules" (.jarr []))
            let ms ← liftE (pyIterList modulesJ)
            let subPaths ← ms.mapM
              (emitHierModule env workflow_dir verilog_map "unnamed_module")
            let top ← liftE (pyDictGetD h "top_module" (.jobj []))
            let allPaths ←
              if truthy top then do
                let tpath ← emitHierModule env workflow_dir verilog_map "top_module" top
                pure (subPaths ++ [tpath])
              else pure subPaths
            let verilog_file :=
              match allPaths.getLast? with
              | some p => p
              | none => pathJoin workflow_dir "top.v"
            pure (allPaths, verilog_file,
                  { state with artifact_list := some allPaths })
          else do
            let flat_code ← liftE (resolveFlatCode verilog_map module_name spec_json3)
            let verilog_file := pathJoin workflow_dir (module_name ++ ".v")
            writeFileE env verilog_file (.text flat_code)
            pure ([verilog_file], verilog_file,
                  { state with artifact := some verilog_file })
        let all_modules := branch.1
        let verilog_file := branch.2.1
        let state1 := branch.2.2
        let log_path := pathJoin workflow_dir "spec_agent_compile.log"
        let checked ←
          if !isHier then
            match env.iverilog verilog_file with
            | .exitZero => pure ("✅ Verilog syntax check passed.", state1)
            | .exitNonZero diag =>
                pure ("⚠️ RTL generated but failed compilation",
                      { state1 with error_log := some diag })
            | .invokeFail msg => effThrow msg
          else pure ("⚙️ Skipped syntax check (hierarchical).", state1)
        let compile_status := checked.1
        let state2 := { checked.2 with status := some compile_status }
        writeFileE env log_path (.text
          ("Spec processed at " ++ env.now ++ "\nModule: " ++ module_name ++
           "\n" ++ compile_status ++ "\n"))
        pure { state2 with
          artifact := some verilog_file,
          artifact_list := some all_modules,
          artifact_log := some log_path,
          spec_json := some spec_json_path,
          workflow_dir := some workflow_dir,
          workflow_id := some workflow_id,
          hierarchical_mode := some (if isHier then "true" else "false") }

/-- One run of the agent from an empty write log. -/
def runAgent (env : Env) (state : AgentState) :
    EStateM.Result String (List (String × FileContent)) AgentState :=
  runAgentM env state []

/-- The files successfully written during a run, in order, surviving an
uncaught exception. -/
def runWrites (env : Env) (state : AgentState) : List (String × FileContent) :=
  match runAgent env state with
  | .ok _ ws => ws
  | .error _ ws => ws

/-- Paths of the files written during a run. -/
def writtenPaths (env : Env) (state : AgentState) : List String :=
  (runWrites env state).map Prod.fst

/-- Did the run return normally (no uncaught exception)? -/
def runIsOk (env : Env) (state : AgentState) : Bool :=
  match runAgent env state with
  | .ok _ _ => true
  | .error _ _ => false

/-- The state returned by a normally-terminating run. -/
def runFinal (env : Env) (state : AgentState) : Option AgentState :=
  match runAgent env state with
  | .ok st _ => some st
  | .error _ _ => none

/-- The i-th file written during a run. -/
def writeAt (env : Env) (state : AgentState) (i : Nat) : Option (String × FileContent) :=
  (runWrites env state).get? i

/-! ### Helper lemmas -/

theorem eff_bind_apply (x : Eff α) (f : α → Eff β) (s : List (String × FileContent)) :
    (x >>= f) s = match x s with
      | .ok a s2 => f a s2
      | .error e s2 => .error e s2 := by
  show EStateM.bind x f s = _
  unfold EStateM.bind
  cases x s <;> rfl

theorem eff_pure_apply (a : α) (s : List (String × FileContent)) :
    (pure a : Eff α) s = .ok a s := rfl

theorem getKey_setKey (fs : List (String × JVal)) (k : String) (v : JVal) (k2 : String) :
    getKey (setKey fs k v) k2 = if k2 = k then some v else getKey fs k2 := by
  induction fs with
  | nil =>
      simp only [setKey, getKey]
      rcases eq_or_ne k2 k with h | h
      · subst h; simp
      · rw [if_neg (fun h2 => h h2.symm), if_neg h]
  | cons p rest ih =>
      obtain ⟨k1, w⟩ := p
      simp only [setKey]
      rcases eq_or_ne k1 k with h1 | h1
      · subst h1
        simp only [if_pos rfl, getKey]
        rcases eq_or_ne k1 k2 with h2 | h2
        · subst h2; simp
        · rw [if_neg h2, if_neg (fun h3 => h2 h3.symm), if_neg h2]
      · rw [if_neg h1]
        simp only [getKey]
        rcases eq_or_ne k1 k2 with h2 | h2
        · subst h2
          rw [if_pos rfl, if_neg h1, if_pos rfl]
        · rw [if_neg h2, if_neg h2, ih]

theorem setKey_eq_of_getKey (fs : List (String × JVal)) (k : String) (v : JVal)
    (h : getKey fs k = some v) : setKey fs k v = fs := by
  induction fs with
  | nil => simp [getKey] at h
  | cons p rest ih =>
      obtain ⟨k1, w⟩ := p
      simp only [getKey] at h
      by_cases h1 : k1 = k
      · subst h1
        simp at h
        simp [setKey, h]
      · simp [h1] at h
        simp [setKey, h1, ih h]

theorem hasKey_iff (fs : List (String × JVal)) (k : String) :
    hasKey fs k = (getKey fs k).isSome := rfl

/-- Lines 162-168 on a dict spec either leave it unchanged or add an
`rtl_code` string binding. -/
theorem injectTrailing_obj (t : String) (fs : List (String × JVal)) :
    ∃ fs2, injectTrailing t (.jobj fs) = .ok (.jobj fs2) ∧
      (fs2 = fs ∨ fs2 = setKey fs "rtl_code" (.jstr (pyStrip (pySplitAfter "\x7d" t)))) := by
  unfold injectTrailing
  by_cases h1 : strHas t "\x7d"
  · simp only [h1, if_true]
    by_cases h2 : pyStartsWith (pyLower (pyStrip (pySplitAfter "\x7d" t))) "module"
    · simp only [h2, if_true, pySetItem]
      exact ⟨_, rfl, Or.inr rfl⟩
    · simp only [h2, if_false]
      exact ⟨fs, rfl, Or.inl rfl⟩
  · simp only [h1, if_false]
    exact ⟨fs, rfl, Or.inl rfl⟩

/-- A dict spec without a `hierarchy` key is not flattened. -/
theorem autoFlatten_no_hier (fs : List (String × JVal))
    (h : getKey fs "hierarchy" = none) : autoFlatten (.jobj fs) = .ok (.jobj fs) := by
  unfold autoFlatten
  simp only [pyIn, hasKey, h, Option.isSome_none]
  rfl

/-- FIX 4 is the identity on a dict spec without `module_name` whose
`hierarchy` key is absent. -/
theorem normalizeNames_no_hier (fs : List (String × JVal))
    (hm : getKey fs "module_name" = none) (hh : getKey fs "hierarchy" = none) :
    normalizeNames (.jobj fs) = .ok (.jobj fs) := by
  unfold normalizeNames
  simp only [hm, Option.isSome_none, Bool.and_false, hasKey, hh, Bool.false_eq_true,
    if_false]

/-- FIX 4 is the identity on a dict spec without `module_name` whose
hierarchy has an empty (present) module list. -/
theorem normalizeNames_hier_empty (fs hf : List (String × JVal))
    (hm : getKey fs "module_name" = none)
    (hh : getKey fs "hierarchy" = some (.jobj hf))
    (hmod : getKey hf "modules" = some (.jarr [])) :
    normalizeNames (.jobj fs) = .ok (.jobj fs) := by
  have e1 : setKey hf "modules" (.jarr []) = hf := setKey_eq_of_getKey hf _ _ hmod
  have e2 : setKey fs "hierarchy" (.jobj hf) = fs := setKey_eq_of_getKey fs _ _ hh
  unfold normalizeNames
  simp only [hm, Option.isSome_none, Bool.and_false, hasKey, hh, hmod,
    Option.isSome_some, Bool.false_eq_true, if_false, if_true]
  show (do
    let ms1 ← List.mapM normMember []
    Except.ok (JVal.jobj (setKey fs "hierarchy" (.jobj (setKey hf "modules" (.jarr ms1)))))) =
    Except.ok (JVal.jobj fs)
  simp only [List.mapM_nil, pure, Except.pure, Except.bind, bind]
  rw [e1, e2]

/-- Line 202 yields the literal `auto_module` when both `name` and
`module_name` are absent, whatever other keys (such as `design_name`)
the spec carries. -/
theorem resolveModuleName_none (fs : List (String × JVal))
    (hn : getKey fs "name" = none) (hm : getKey fs "module_name" = none) :
    resolveModuleName (.jobj fs) = .ok "auto_module" := by
  unfold resolveModuleName resolveModuleNameFallback
  simp only [pyDictGet, hn, hm]
  rfl

/-- Flat content resolution on a dict spec whose `rtl_code` field, if
present, is a string, always succeeds. -/
theorem resolveFlatCode_ok (vm : List (String × String)) (n : String)
    (fs : List (String × JVal))
    (h : getKey fs "rtl_code" = none ∨ ∃ r, getKey fs "rtl_code" = some (.jstr r)) :
    ∃ c, resolveFlatCode vm n (.jobj fs) = .ok c := by
  unfold resolveFlatCode
  by_cases h1 : (lookupStr vm (n ++ ".v")).getD "" = ""
  · rw [if_neg (not_not_intro h1)]
    by_cases h2 : (lookupStr vm "default.v").getD "" = ""
    · rw [if_neg (not_not_intro h2)]
      rcases h with h3 | ⟨r, h3⟩
      · refine ⟨"", ?_⟩
        simp only [pyDictGetD, h3, Option.getD_none]
        rfl
      · refine ⟨r, ?_⟩
        simp only [pyDictGetD, h3, Option.getD_some]
        rfl
    · rw [if_pos h2]
      exact ⟨_, rfl⟩
  · rw [if_pos h1]
    exact ⟨_, rfl⟩

/-! ### Claim inputs -/

/-- A caller state with a nonempty design request and a fixed workflow
directory. -/
def stBase : AgentState :=
  { workflow_id := some "wf", workflow_dir := some "wd", spec := some "design request" }

/-- The end-to-end input of C1. -/
def c1Output : String :=
  "\x7b\"name\":\"alu\"\x7d\n---BEGIN VERILOG---\nmodule alu; endmodule\n---END VERILOG---"

/-- Environment for C1: the backend returns `c1Output`, `json.loads`
parses its metadata segment, all writes succeed, and the syntax checker
answers (with exit 0) only when invoked on the flat artifact `wd/alu.v`. -/
def envC1 : Env :=
  { llm := .ok c1Output
    parseJson := fun s =>
      if s = "\x7b\"name\":\"alu\"\x7d" then some (.jobj [("name", .jstr "alu")]) else none
    writeOk := fun _ => true
    iverilog := fun f => if f = "wd/alu.v" then .exitZero
      else .invokeFail "tool was not invoked on the flat artifact"
    now := "2026-10-12" }

/-- The metadata of C2: one submodule `x`, top module `y`. -/
def c2Hier : JVal :=
  .jobj [("hierarchy", .jobj
    [("modules", .jarr [.jobj [("name", .jstr "x")]]),
     ("top_module", .jobj [("name", .jstr "y")])])]

/-- The block map of C3's counterexample: no `alu.v` key, no `default.v`
key, one first-inserted entry. -/
def c3Map : List (String × String) := [("z.v", "module z; endmodule")]

/-- The mismatched-marker text of C8. -/
def c8Mismatched : String := "---BEGIN a.v--- ... ---END b.v---"

/-- A mismatched pair followed by a well-formed pair, exercising the
scanner's continuation past the failed marker. -/
def c8Continue : String :=
  "---BEGIN a.v--- junk ---END b.v------BEGIN c.v---module c; endmodule---END c.v---"

/-! ### Claims -/

/-- C1: for the generation output
`'{"name":"alu"}\n---BEGIN VERILOG---\nmodule alu; endmodule\n---END VERILOG---'`
the pipeline persists the spec artifact `{"name":"alu"}` and invokes the
syntax checker on `wd/alu.v`, but the emitted `alu.v` is EMPTY: the
generic block is captured by the general paired-marker regex under the
key `VERILOG` (the token class `[\w\-.]+` matches the word `VERILOG`),
so the `default.v` fallback that flat resolution consults never fires
and the resolved content degrades to the empty string, against the
claimed content `"module alu; endmodule"`. -/
theorem C1_end_to_end_eval :
    writtenPaths envC1 stBase =
      ["wd/llm_raw_output.txt", "wd/alu_spec.json", "wd/alu.v",
       "wd/spec_agent_compile.log"] ∧
    writeAt envC1 stBase 1 =
      some ("wd/alu_spec.json", .json (.jobj [("name", .jstr "alu")])) ∧
    writeAt envC1 stBase 2 = some ("wd/alu.v", .text "") ∧
    lookupStr (extractVerilogMap c1Output) "VERILOG" = some "module alu; endmodule" ∧
    lookupStr (extractVerilogMap c1Output) "alu.v" = none ∧
    lookupStr (extractVerilogMap c1Output) "default.v" = none ∧
    (runFinal envC1 stBase).map AgentState.status =
      some (some "✅ Verilog syntax check passed.") :=
  ⟨rfl, rfl, rfl, rfl, rfl, rfl, rfl⟩

/-- C2: metadata with `modules=[{"name":"x"}]` and `top_module={"name":"y"}`
is NOT kept hierarchical: flatten rule B fires on `len(modules) == 1`
alone and replaces the spec by the single submodule, discarding the top
module entry. -/
theorem C2_counterexample :
    autoFlatten c2Hier = .ok (.jobj [("name", .jstr "x")]) ∧
    jvalEq (.jobj [("name", .jstr "x")]) c2Hier = false :=
  ⟨rfl, rfl⟩

/-- C2 amended: a hierarchy with exactly one submodule is always
flattened to that submodule, whatever the top module is (even a
differently named or non-dict one). -/
theorem C2_amended (m top : JVal) :
    autoFlatten (.jobj [("hierarchy", .jobj
      [("modules", .jarr [m]), ("top_module", top)])]) = .ok m := rfl

/-- Witness for the amended C2 at the concrete one-submodule hierarchy. -/
theorem C2_amended_witness :
    autoFlatten (.jobj [("hierarchy", .jobj
      [("modules", .jarr [.jobj [("name", .jstr "m0")]]),
       ("top_module", .jobj [("name", .jstr "other")])])]) =
      .ok (.jobj [("name", .jstr "m0")]) :=
  C2_amended (.jobj [("name", .jstr "m0")]) (.jobj [("name", .jstr "other")])

/-- C3: for a flat spec named `alu` whose block map holds neither
`alu.v` nor `default.v`, resolution does NOT fall back to the
first-inserted entry: it degrades to the empty string. -/
theorem C3_counterexample :
    resolveFlatCode c3Map "alu" (.jobj []) = .ok "" ∧
    resolveFlatCode c3Map "alu" (.jobj []) ≠ .ok "module z; endmodule" := by
  refine ⟨rfl, fun h => ?_⟩
  have h2 : Except.ok (ε := String) "" = Except.ok "module z; endmodule" :=
    (show resolveFlatCode c3Map "alu" (.jobj []) = .ok "" from rfl).symm.trans h
  exact absurd (Except.ok.inj h2) (by decide)

/-- C3 amended: flat content is the first non-empty of (1) the block
keyed `<name>.v`, (2) the block keyed `default.v`, (3) the spec's
`rtl_code` field (returned even when empty); otherwise the empty
string.  No first-inserted-entry fallback exists. -/
theorem C3_amended :
    (∀ (vm : List (String × String)) (n : String) (fs : List (String × JVal)) (s : String),
      lookupStr vm (n ++ ".v") = some s → s ≠ "" →
      resolveFlatCode vm n (.jobj fs) = .ok s) ∧
    (∀ (vm : List (String × String)) (n : String) (fs : List (String × JVal)) (s : String),
      (lookupStr vm (n ++ ".v")).getD "" = "" → lookupStr vm "default.v" = some s →
      s ≠ "" → resolveFlatCode vm n (.jobj fs) = .ok s) ∧
    (∀ (vm : List (String × String)) (n : String) (fs : List (String × JVal)) (r : String),
      (lookupStr vm (n ++ ".v")).getD "" = "" → (lookupStr vm "default.v").getD "" = "" →
      getKey fs "rtl_code" = some (.jstr r) → resolveFlatCode vm n (.jobj fs) = .ok r) ∧
    (∀ (vm : List (String × String)) (n : String) (fs : List (String × JVal)),
      (lookupStr vm (n ++ ".v")).getD "" = "" → (lookupStr vm "default.v").getD "" = "" →
      getKey fs "rtl_code" = none → resolveFlatCode vm n (.jobj fs) = .ok "") := by
  refine ⟨?_, ?_, ?_, ?_⟩
  · intro vm n fs s h1 h2
    unfold resolveFlatCode
    rw [h1]
    simp only [Option.getD_some]
    rw [if_pos h2]
  · intro vm n fs s h1 h2 h3
    unfold resolveFlatCode
    rw [h1, if_neg (not_not_intro rfl), h2]
    simp only [Option.getD_some]
    rw [if_pos h3]
  · intro vm n fs r h1 h2 h3
    unfold resolveFlatCode
    rw [h1, if_neg (not_not_intro rfl), h2, if_neg (not_not_intro rfl)]
    simp only [pyDictGetD, h3, Option.getD_some]
    rfl
  · intro vm n fs h1 h2 h3
    unfold resolveFlatCode
    rw [h1, if_neg (not_not_intro rfl), h2, if_neg (not_not_intro rfl)]
    simp only [pyDictGetD, h3, Option.getD_none]
    rfl

/-- Witness for the amended C3: each priority level applied at a
concrete input. -/
theorem C3_amended_witness :
    resolveFlatCode [("alu.v", "A")] "alu" (.jobj []) = .ok "A" ∧
    resolveFlatCode [("default.v", "B")] "alu" (.jobj []) = .ok "B" ∧
    resolveFlatCode [] "alu" (.jobj [("rtl_code", .jstr "R")]) = .ok "R" ∧
    resolveFlatCode [] "alu" (.jobj []) = .ok "" :=
  ⟨C3_amended.1 [("alu.v", "A")] "alu" [] "A" rfl (by decide),
   C3_amended.2.1 [("default.v", "B")] "alu" [] "B" rfl rfl (by decide),
   C3_amended.2.2.1 [] "alu" [("rtl_code", .jstr "R")] "R" rfl rfl rfl,
   C3_amended.2.2.2 [] "alu" [] rfl rfl rfl⟩

/-- C8: the mismatched pair `---BEGIN a.v--- ... ---END b.v---` yields
zero captured blocks (extraction is total, so nothing is raised), and
scanning continues past a failed marker: a well-formed pair following
the mismatched one is still captured. -/
theorem C8_mismatched_markers :
    extractVerilogMap c8Mismatched = [] ∧
    extractVerilogMap c8Continue = [("c.v", "module c; endmodule")] :=
  ⟨rfl, rfl⟩

/-- Environment for C4's counterexample: the backend call succeeds but
returns empty text. -/
def envC4empty : Env :=
  { llm := .ok ""
    parseJson := fun _ => none
    writeOk := fun _ => true
    iverilog := fun _ => .exitZero
    now := "2026-10-12" }

/-- Environment for C4's amended-claim witness: the backend call raises. -/
def envC4err : Env :=
  { llm := .error "portkey down"
    parseJson := fun _ => none
    writeOk := fun _ => true
    iverilog := fun _ => .exitZero
    now := "2026-10-12" }

/-- C4: empty returned text does NOT abort the run: the raw dump, a
placeholder spec, an empty flat artifact and the log are all written,
and the final status is the syntax-check result, not a failure report. -/
theorem C4_counterexample :
    writtenPaths envC4empty stBase =
      ["wd/llm_raw_output.txt", "wd/auto_module_spec.json", "wd/auto_module.v",
       "wd/spec_agent_compile.log"] ∧
    runIsOk envC4empty stBase = true ∧
    (runFinal envC4empty stBase).map AgentState.status =
      some (some "✅ Verilog syntax check passed.") :=
  ⟨rfl, rfl, rfl⟩

/-- C4 amended: only an exception inside the generation call aborts the
run before any file is written, reporting a failure status; empty
returned text continues the pipeline (see the counterexample). -/
theorem C4_amended (env : Env) (st : AgentState) (e : String)
    (h1 : st.spec.getD "" ≠ "") (h2 : env.llm = .error e) :
    runAgent env st =
      .ok { st with status := some ("❌ LLM generation failed: " ++ e) } [] := by
  unfold runAgent runAgentM
  rw [h2, if_neg h1]
  rfl

/-- Witness for the amended C4 at a concrete failing backend. -/
theorem C4_amended_witness :
    runAgent envC4err stBase =
      .ok { stBase with status := some "❌ LLM generation failed: portkey down" } [] :=
  C4_amended envC4err stBase "portkey down" (by decide) rfl

/-- Environment for C5's counterexample: metadata holding only
`design_name`. -/
def envC5 : Env :=
  { llm := .ok "\x7b\"design_name\": \"d\"\x7d"
    parseJson := fun s =>
      if s = "\x7b\"design_name\": \"d\"\x7d" then
        some (.jobj [("design_name", .jstr "d")])
      else none
    writeOk := fun _ => true
    iverilog := fun _ => .exitZero
    now := "2026-10-12" }

/-- Environment for C5's amended claim: a hierarchy whose first member
has only `module_name`, whose second member is anonymous, and whose top
module carries an explicit `rtl_output_file`. -/
def envC5h : Env :=
  { llm := .ok "H"
    parseJson := fun _ => some (.jobj [("hierarchy", .jobj
      [("modules", .jarr [.jobj [("module_name", .jstr "mm")], .jobj []]),
       ("top_module", .jobj [("name", .jstr "t"), ("rtl_output_file", .jstr "X.v")])])])
    writeOk := fun _ => true
    iverilog := fun _ => .exitZero
    now := "2026-10-12" }

/-- C5: flat metadata containing only `design_name: d` does NOT yield
files `d_spec.json` and `d.v`: line 202 recomputes the module name
without consulting `design_name`, so the emitted files are
`auto_module_spec.json` and `auto_module.v`. -/
theorem C5_counterexample :
    writtenPaths envC5 stBase =
      ["wd/llm_raw_output.txt", "wd/auto_module_spec.json", "wd/auto_module.v",
       "wd/spec_agent_compile.log"] ∧
    ¬ "wd/d_spec.json" ∈ writtenPaths envC5 stBase ∧
    ¬ "wd/d.v" ∈ writtenPaths envC5 stBase :=
  ⟨rfl, by decide, by decide⟩

/-- C5 amended: the canonical name used for output files is the first
truthy of `name` and `module_name` only, with literal fallback
`auto_module` at top level — `design_name` never reaches the file names;
hierarchy members fall back to `module_name` (copied into `name`) and
then to the literal `unnamed_module`, and an explicit `rtl_output_file`
overrides the synthesized `<name>.v`. -/
theorem C5_amended :
    (∀ fs : List (String × JVal), getKey fs "name" = none →
      getKey fs "module_name" = none →
      resolveModuleName (.jobj fs) = .ok "auto_module") ∧
    writtenPaths envC5h stBase =
      ["wd/llm_raw_output.txt", "wd/auto_module_spec.json", "wd/mm.v",
       "wd/unnamed_module.v", "wd/X.v", "wd/spec_agent_compile.log"] :=
  ⟨resolveModuleName_none, rfl⟩

/-- Witness for the amended C5: `design_name`-only metadata resolves to
`auto_module`. -/
theorem C5_amended_witness :
    resolveModuleName (.jobj [("design_name", .jstr "d")]) = .ok "auto_module" :=
  C5_amended.1 [("design_name", .jstr "d")] rfl rfl

/-- The two-submodule hierarchy of C6. -/
def c6Hier : JVal :=
  .jobj [("hierarchy", .jobj
    [("modules", .jarr [.jobj [("name", .jstr "m1")], .jobj [("name", .jstr "m2")]]),
     ("top_module", .jobj [("name", .jstr "t")])])]

/-- Environment for C6: the filesystem refuses exactly the first
submodule's file. -/
def envC6 : Env :=
  { llm := .ok "HJSON"
    parseJson := fun _ => some c6Hier
    writeOk := fun p => p != "wd/m1.v"
    iverilog := fun _ => .exitZero
    now := "2026-10-12" }

/-- C6: a failed artifact write is NOT confined to that artifact: the
run aborts with the uncaught exception, and the remaining artifacts
(`m2.v`, the top module, the log) are never written. -/
theorem C6_counterexample :
    ¬ "wd/m2.v" ∈ writtenPaths envC6 stBase ∧
    ¬ "wd/t.v" ∈ writtenPaths envC6 stBase ∧
    runIsOk envC6 stBase = false :=
  ⟨by decide, by decide, rfl⟩

/-- C6 amended: a filesystem failure on one artifact propagates as an
unhandled exception: files already written are kept, the remaining
artifacts in the sequence are not written, and no result record is
produced. -/
theorem C6_amended :
    runAgent envC6 stBase = .error "IOError: cannot write wd/m1.v"
      [("wd/llm_raw_output.txt", .text "HJSON"),
       ("wd/auto_module_spec.json", .json c6Hier)] := rfl

/-- Environment for C7: a flat design whose syntax-check tool cannot be
invoked at all. -/
def envC7 : Env :=
  { llm := .ok "\x7b\"name\": \"alu\"\x7d"
    parseJson := fun s =>
      if s = "\x7b\"name\": \"alu\"\x7d" then some (.jobj [("name", .jstr "alu")])
      else none
    writeOk := fun _ => true
    iverilog := fun _ =>
      .invokeFail "FileNotFoundError: No such file or directory: /usr/bin/iverilog"
    now := "2026-10-12" }

/-- C7's contrast environment: the tool runs but the design fails to
compile (a `CalledProcessError`). -/
def envC7b : Env :=
  { llm := .ok "\x7b\"name\": \"alu\"\x7d"
    parseJson := fun s =>
      if s = "\x7b\"name\": \"alu\"\x7d" then some (.jobj [("name", .jstr "alu")])
      else none
    writeOk := fun _ => true
    iverilog := fun _ => .exitNonZero "diag"
    now := "2026-10-12" }

/-- C7: when the tool cannot be invoked, the pipeline does NOT run to
completion: the log is never written, no result record is produced, and
the run ends in the uncaught exception. -/
theorem C7_counterexample :
    runIsOk envC7 stBase = false ∧
    ¬ "wd/spec_agent_compile.log" ∈ writtenPaths envC7 stBase ∧
    runFinal envC7 stBase = none :=
  ⟨rfl, by decide, rfl⟩

/-- C7 amended: a tool-invocation failure aborts the run after the
artifacts were written (they are kept, nothing is rolled back), while
only a nonzero exit is caught and surfaced — as the distinct status
`⚠️ RTL generated but failed compilation` with the diagnostics in
`error_log`. -/
theorem C7_amended :
    runAgent envC7 stBase =
      .error "FileNotFoundError: No such file or directory: /usr/bin/iverilog"
        [("wd/llm_raw_output.txt", .text "\x7b\"name\": \"alu\"\x7d"),
         ("wd/alu_spec.json", .json (.jobj [("name", .jstr "alu")])),
         ("wd/alu.v", .text "")] ∧
    (runFinal envC7b stBase).map AgentState.status =
      some (some "⚠️ RTL generated but failed compilation") ∧
    (runFinal envC7b stBase).map AgentState.error_log = some (some "diag") :=
  ⟨rfl, rfl, rfl⟩

/-- When `json.loads` rejects the metadata segment, normalization always
ends on a flat dict spec named `auto_module` that retains the
placeholder's `description` and `raw` fields, has no `hierarchy`, and
whose only possible extra field is a string `rtl_code`. -/
theorem normalizeChain_parse_failure (env : Env) (t : String)
    (hparse : env.parseJson (specPartOf t) = none) :
    ∃ fs2 : List (String × JVal),
      normalizeChain env t = .ok (.jobj fs2, "auto_module") ∧
      getKey fs2 "description" = some (.jstr "LLM JSON parse failed") ∧
      getKey fs2 "raw" = some (.jstr (specPartOf t)) ∧
      getKey fs2 "hierarchy" = none ∧
      (getKey fs2 "rtl_code" = none ∨ ∃ r, getKey fs2 "rtl_code" = some (.jstr r)) := by
  obtain ⟨fs2, hinj, hcase⟩ := injectTrailing_obj t
    [("description", .jstr "LLM JSON parse failed"), ("raw", .jstr (specPartOf t))]
  have hdesc : getKey fs2 "description" = some (.jstr "LLM JSON parse failed") := by
    rcases hcase with h | h <;> subst h <;> rfl
  have hraw : getKey fs2 "raw" = some (.jstr (specPartOf t)) := by
    rcases hcase with h | h <;> subst h <;> rfl
  have hhier : getKey fs2 "hierarchy" = none := by
    rcases hcase with h | h <;> subst h <;> rfl
  have hname : getKey fs2 "name" = none := by
    rcases hcase with h | h <;> subst h <;> rfl
  have hmn : getKey fs2 "module_name" = none := by
    rcases hcase with h | h <;> subst h <;> rfl
  have hrtl : getKey fs2 "rtl_code" = none ∨ ∃ r, getKey fs2 "rtl_code" = some (.jstr r) := by
    rcases hcase with h | h <;> subst h
    · exact Or.inl rfl
    · exact Or.inr ⟨_, rfl⟩
  refine ⟨fs2, ?_, hdesc, hraw, hhier, hrtl⟩
  have haf := autoFlatten_no_hier fs2 hhier
  have hnn := normalizeNames_no_hier fs2 hmn hhier
  have hrm := resolveModuleName_none fs2 hname hmn
  unfold normalizeChain
  simp only [hparse, parseFailurePlaceholder, hinj, haf, hnn, hrm, bind, Except.bind]

/-- The raw output of C9's counterexample: unparseable metadata whose
text after the first closing brace starts with `module`. -/
def c9Output : String := "junk \x7d module x; endmodule"

/-- Environment for C9: `json.loads` rejects everything. -/
def envC9 : Env :=
  { llm := .ok c9Output
    parseJson := fun _ => none
    writeOk := fun _ => true
    iverilog := fun _ => .exitZero
    now := "2026-10-12" }

/-- C9: on this parse failure the persisted spec is NOT the two-field
placeholder: the trailing text after the first `}` starts with `module`,
so an `rtl_code` field is added, and the emitted `auto_module.v`
receives that trailing text even though the code-block map is empty. -/
theorem C9_counterexample :
    writeAt envC9 stBase 1 = some ("wd/auto_module_spec.json", .json (.jobj
      [("description", .jstr "LLM JSON parse failed"), ("raw", .jstr c9Output),
       ("rtl_code", .jstr "module x; endmodule")])) ∧
    jvalEq
      (.jobj [("description", .jstr "LLM JSON parse failed"), ("raw", .jstr c9Output),
              ("rtl_code", .jstr "module x; endmodule")])
      (parseFailurePlaceholder c9Output) = false ∧
    extractVerilogMap c9Output = [] ∧
    writeAt envC9 stBase 2 = some ("wd/auto_module.v", .text "module x; endmodule") :=
  ⟨rfl, rfl, rfl, rfl⟩

/-- C9 amended: whenever the metadata segment fails to parse, the run
still completes the flat path end to end under module name
`auto_module`: it writes exactly the raw dump, `auto_module_spec.json`,
`auto_module.v` and the log, and the persisted spec retains the
placeholder's `description` (`LLM JSON parse failed`) and `raw` (the
metadata text) fields — possibly alongside an `rtl_code` field, which
may also supply the code content (see the counterexample). -/
theorem C9_amended (t : String) (env : Env) (st : AgentState)
    (hllm : env.llm = .ok t)
    (hparse : ∀ s, env.parseJson s = none)
    (hw : ∀ p, env.writeOk p = true)
    (hiv : ∀ f, env.iverilog f = .exitZero)
    (hdir : st.workflow_dir = some "wd")
    (hspec : st.spec.getD "" ≠ "") :
    writtenPaths env st =
      ["wd/llm_raw_output.txt", "wd/auto_module_spec.json", "wd/auto_module.v",
       "wd/spec_agent_compile.log"] ∧
    ∃ S : JVal, writeAt env st 1 = some ("wd/auto_module_spec.json", .json S) ∧
      pyDictGet S "description" = .ok (some (.jstr "LLM JSON parse failed")) ∧
      pyDictGet S "raw" = .ok (some (.jstr (specPartOf t))) := by
  obtain ⟨fs2, hnc, hdesc, hraw, hhier, hrtl⟩ :=
    normalizeChain_parse_failure env t (hparse _)
  obtain ⟨c, hc⟩ := resolveFlatCode_ok (extractVerilogMap t) "auto_module" fs2 hrtl
  have hisHier : pyIn "hierarchy" (.jobj fs2) = .ok false := by
    simp [pyIn, hasKey, hhier]
  have main : runAgent env st = EStateM.Result.ok
      { st with
        status := some "✅ Verilog syntax check passed.",
        artifact := some "wd/auto_module.v",
        artifact_list := some ["wd/auto_module.v"],
        artifact_log := some "wd/spec_agent_compile.log",
        spec_json := some "wd/auto_module_spec.json",
        workflow_dir := some "wd",
        workflow_id := some (st.workflow_id.getD "default"),
        hierarchical_mode := some "false" }
      [("wd/llm_raw_output.txt", .text t),
       ("wd/auto_module_spec.json", .json (.jobj fs2)),
       ("wd/auto_module.v", .text c),
       ("wd/spec_agent_compile.log", .text
         ("Spec processed at " ++ env.now ++ "\nModule: " ++ "auto_module" ++
          "\n" ++ "✅ Verilog syntax check passed." ++ "\n"))] := by
    unfold runAgent runAgentM
    simp only [hllm, hdir, Option.getD_some, if_neg hspec, writeFileE, hw, liftE,
      hnc, hisHier, hc, hiv, eff_bind_apply, eff_pure_apply, pathJoin,
      List.nil_append, List.cons_append, if_true, Bool.not_false, Bool.not_true,
      Bool.false_eq_true, Bool.true_eq_false, if_false]
    rfl
  refine ⟨?_, .jobj fs2, ?_, ?_, ?_⟩
  · unfold writtenPaths runWrites
    rw [main]
    rfl
  · unfold writeAt runWrites
    rw [main]
    rfl
  · simp only [pyDictGet, hdesc]
  · simp only [pyDictGet, hraw]

/-- Witness for the amended C9 at the concrete parse-failure run. -/
theorem C9_amended_witness :
    writtenPaths envC9 stBase =
      ["wd/llm_raw_output.txt", "wd/auto_module_spec.json", "wd/auto_module.v",
       "wd/spec_agent_compile.log"] ∧
    ∃ S : JVal, writeAt envC9 stBase 1 = some ("wd/auto_module_spec.json", .json S) ∧
      pyDictGet S "description" = .ok (some (.jstr "LLM JSON parse failed")) ∧
      pyDictGet S "raw" = .ok (some (.jstr (specPartOf c9Output))) :=
  C9_amended c9Output envC9 stBase rfl (fun _ => rfl) (fun _ => rfl) (fun _ => rfl)
    rfl (by decide)

/-- A hierarchy with an empty module list and a falsy (absent or empty)
top module is left unflattened by FIX 3. -/
theorem autoFlatten_hier_empty (fs hf : List (String × JVal))
    (hh : getKey fs "hierarchy" = some (.jobj hf))
    (hmod : getKey hf "modules" = some (.jarr []))
    (htop : getKey hf "top_module" = none ∨ getKey hf "top_module" = some (.jobj [])) :
    autoFlatten (.jobj fs) = .ok (.jobj fs) := by
  unfold autoFlatten
  rcases htop with h | h <;>
    simp only [pyIn, hasKey, hh, Option.isSome_some, if_true, pyGetItem, bind,
      Except.bind] <;>
    simp only [hmod, h, Option.getD_some, Option.getD_none] <;>
    rfl

set_option maxRecDepth 8000 in
set_option maxHeartbeats 1000000 in
/-- C10: when the parsed metadata is a hierarchy with an empty module
list and an absent or empty top module, no Verilog file is written at
all, yet the returned state's `artifact` is `wd/top.v` — a path that
never appears in the write log — while `artifact_list` is empty. -/
theorem C10_phantom_artifact (t : String) (env : Env) (st : AgentState)
    (hf : List (String × JVal))
    (hllm : env.llm = .ok t)
    (hparse : env.parseJson (specPartOf t) = some (.jobj [("hierarchy", .jobj hf)]))
    (hw : ∀ p, env.writeOk p = true)
    (hdir : st.workflow_dir = some "wd")
    (hspec : st.spec.getD "" ≠ "")
    (hmod : getKey hf "modules" = some (.jarr []))
    (htop : getKey hf "top_module" = none ∨ getKey hf "top_module" = some (.jobj [])) :
    (runFinal env st).map AgentState.artifact = some (some "wd/top.v") ∧
    (runFinal env st).map AgentState.artifact_list = some (some []) ∧
    writtenPaths env st =
      ["wd/llm_raw_output.txt", "wd/auto_module_spec.json",
       "wd/spec_agent_compile.log"] ∧
    ¬ "wd/top.v" ∈ writtenPaths env st := by
  obtain ⟨fs2, hinj, hcase⟩ := injectTrailing_obj t [("hierarchy", .jobj hf)]
  have hhier2 : getKey fs2 "hierarchy" = some (.jobj hf) := by
    rcases hcase with h | h <;> subst h <;> rfl
  have hname : getKey fs2 "name" = none := by
    rcases hcase with h | h <;> subst h <;> rfl
  have hmn : getKey fs2 "module_name" = none := by
    rcases hcase with h | h <;> subst h <;> rfl
  have haf := autoFlatten_hier_empty fs2 hf hhier2 hmod htop
  have hnn := normalizeNames_hier_empty fs2 hf hmn hhier2 hmod
  have hrm := resolveModuleName_none fs2 hname hmn
  have hnc : normalizeChain env t = .ok (.jobj fs2, "auto_module") := by
    unfold normalizeChain
    simp only [hparse, hinj, haf, hnn, hrm, bind, Except.bind]
  have hisHier : pyIn "hierarchy" (.jobj fs2) = .ok true := by
    simp [pyIn, hasKey, hhier2]
  have hgi : pyGetItem (.jobj fs2) "hierarchy" = .ok (.jobj hf) := by
    simp [pyGetItem, hhier2]
  have hmd : pyDictGetD (.jobj hf) "modules" (.jarr []) = .ok (.jarr []) := by
    simp [pyDictGetD, hmod]
  have htd : pyDictGetD (.jobj hf) "top_module" (.jobj []) = .ok (.jobj []) := by
    rcases htop with h | h <;> simp [pyDictGetD, h]
  have main : runAgent env st = EStateM.Result.ok
      { st with
        status := some "⚙️ Skipped syntax check (hierarchical).",
        artifact := some "wd/top.v",
        artifact_list := some [],
        artifact_log := some "wd/spec_agent_compile.log",
        spec_json := some "wd/auto_module_spec.json",
        workflow_dir := some "wd",
        workflow_id := some (st.workflow_id.getD "default"),
        hierarchical_mode := some "true" }
      [("wd/llm_raw_output.txt", .text t),
       ("wd/auto_module_spec.json", .json (.jobj fs2)),
       ("wd/spec_agent_compile.log", .text
         ("Spec processed at " ++ env.now ++ "\nModule: " ++ "auto_module" ++
          "\n" ++ "⚙️ Skipped syntax check (hierarchical)." ++ "\n"))] := by
    unfold runAgent runAgentM
    simp only [hllm, hdir, Option.getD_some, if_neg hspec, writeFileE, hw, liftE,
      hnc, hisHier, hgi, hmd, htd, eff_bind_apply, eff_pure_apply, pathJoin,
      List.nil_append, List.cons_append, if_true, Bool.not_false, Bool.not_true,
      Bool.false_eq_true, Bool.true_eq_false, if_false]
    simp only [pyIterList, eff_pure_apply, eff_bind_apply, List.mapM, List.mapM.loop,
      truthy, List.isEmpty, Bool.not_true, Bool.false_eq_true, if_false,
      List.getLast?, List.reverse_nil]
    simp only [writeFileE, hw]
    rfl
  refine ⟨?_, ?_, ?_, ?_⟩
  · unfold runFinal
    rw [main]
    rfl
  · unfold runFinal
    rw [main]
    rfl
  · unfold writtenPaths runWrites
    rw [main]
    rfl
  · unfold writtenPaths runWrites
    rw [main]
    show ¬ "wd/top.v" ∈
      ["wd/llm_raw_output.txt", "wd/auto_module_spec.json", "wd/spec_agent_compile.log"]
    decide

/-- Environment for C10's witness: metadata parsing to a hierarchy with
empty modules and an empty top module. -/
def envC10 : Env :=
  { llm := .ok "X"
    parseJson := fun _ =>
      some (.jobj [("hierarchy", .jobj
        [("modules", .jarr []), ("top_module", .jobj [])])])
    writeOk := fun _ => true
    iverilog := fun _ => .exitZero
    now := "2026-10-12" }

/-- Witness for C10 at a concrete empty hierarchy. -/
theorem C10_phantom_artifact_witness :
    (runFinal envC10 stBase).map AgentState.artifact = some (some "wd/top.v") ∧
    (runFinal envC10 stBase).map AgentState.artifact_list = some (some []) ∧
    writtenPaths envC10 stBase =
      ["wd/llm_raw_output.txt", "wd/auto_module_spec.json",
       "wd/spec_agent_compile.log"] ∧
    ¬ "wd/top.v" ∈ writtenPaths envC10 stBase :=
  C10_phantom_artifact "X" envC10 stBase
    [("modules", .jarr []), ("top_module", .jobj [])]
    rfl rfl (fun _ => rfl) rfl (by decide) rfl (Or.inr rfl)

end DigitalSpec
